import Mathlib

/-!
Verification of `src/b00/std/b00_stubs_cpu.c` of the b0 repository.

The file defines one C stub, `ocaml_b00_cpu_logical_count`, three times under
preprocessor conditionals: a POSIX/Darwin version using
`sysconf (_SC_NPROCESSORS_ONLN)` (lines 17-22), a Windows version reading
`SYSTEM_INFO.dwNumberOfProcessors` (lines 30-37), and an unsupported-platform
version returning the constant 1 (lines 44-47), the last preceded by a
`warning` preprocessor directive (line 42).  We embed each branch as a pure
function of the value its OS query reports, a dispatcher over the selected
platform, and the preprocessor selection itself as a function of which macros
are defined.  `Val_int` only tags the machine integer as an OCaml immediate
integer (every `int` and `DWORD` value fits in the 63-bit OCaml integer), so
the embedded functions return the integer the OCaml caller observes.  The
header `b00_stubs.h` (not in the tree) is assumed to provide the usual OCaml
C-stub declarations, including the `CAMLPrim` spelling used on lines 30
and 44.
-/

/-- Compile-time platform selected by the preprocessor conditionals of
`b00_stubs_cpu.c`: line 13 selects POSIX/Darwin, line 26 selects Windows,
line 41 is the fallback for every other target. -/
inductive Platform
  | darwin_or_posix
  | windows
  | unsupported
  deriving DecidableEq

/-- Whether each of the three platform macros tested by the preprocessor
conditionals is defined for a given build. -/
structure BuildConfig where
  OCAML_B00_DARWIN : Bool
  OCAML_B00_POSIX : Bool
  OCAML_B00_WINDOWS : Bool

/-- The platform the preprocessor selects: the conditional on line 13 takes
the POSIX/Darwin branch when `OCAML_B00_DARWIN` or `OCAML_B00_POSIX` is
defined, the conditional on line 26 takes the Windows branch when
`OCAML_B00_WINDOWS` is defined, and the branch on line 41 is taken
otherwise. -/
def selected_platform (c : BuildConfig) : Platform :=
  if c.OCAML_B00_DARWIN || c.OCAML_B00_POSIX then Platform.darwin_or_posix
  else if c.OCAML_B00_WINDOWS then Platform.windows
  else Platform.unsupported

/-- Whether the build emits the `warning` preprocessor directive of line 42.
The directive sits in the fallback branch opened on line 41, so it fires, at
compile time, exactly when the selected platform is the unsupported one. -/
def build_emits_warning (c : BuildConfig) : Bool :=
  selected_platform c = Platform.unsupported

/-- The OS-global information the stub may read.
`sysconf_nprocessors_onln` is the value `sysconf (_SC_NPROCESSORS_ONLN)`
returns on line 19: the number of processors currently online, or `-1` on
failure (any actual processor count fits in the `int` the source stores it
in, so the stored `int` is the reported value itself).
`dwNumberOfProcessors` is the value held by the `DWORD` field of the
`SYSTEM_INFO` structure that `GetSystemInfo` fills on line 33; `DWORD` is an
unsigned 32-bit type, so reading the field yields its value modulo `2 ^ 32`. -/
structure OSState where
  sysconf_nprocessors_onln : Int
  dwNumberOfProcessors : Nat

/-- POSIX/Darwin branch of the stub, lines 17-22 of the source:
`int n = sysconf (_SC_NPROCESSORS_ONLN); if (n < 0) { n = 1; }
return Val_int (n);`.  The argument is the value the `sysconf` query
reports. -/
def ocaml_b00_cpu_logical_count_posix (n : Int) : Int :=
  if n < 0 then 1 else n

/-- Windows branch of the stub, lines 30-37 of the source:
`GetSystemInfo (&i); DWORD n = i.dwNumberOfProcessors;
if (n < 0) { n = 1; } return Val_int (n);`.  The argument is the value of the
`dwNumberOfProcessors` field; reading the unsigned 32-bit field yields
`dw % 2 ^ 32`, and the C comparison `n < 0` compares unsigned values (the
literal `0` is converted to `DWORD`), which is the `Nat` comparison here. -/
def ocaml_b00_cpu_logical_count_windows (dw : Nat) : Nat :=
  let n : Nat := dw % 2 ^ 32
  if n < 0 then 1 else n

/-- The stub as compiled for platform `p`, reading the OS state `os`:
dispatches to the branch the preprocessor kept.  The unsupported branch,
lines 44-47, is `return Val_int (1);`. -/
def ocaml_b00_cpu_logical_count (p : Platform) (os : OSState) : Int :=
  match p with
  | Platform.darwin_or_posix =>
      ocaml_b00_cpu_logical_count_posix os.sysconf_nprocessors_onln
  | Platform.windows =>
      (ocaml_b00_cpu_logical_count_windows os.dwNumberOfProcessors : Int)
  | Platform.unsupported => 1

/-- One call of the stub with the OS state threaded explicitly, statement by
statement: each statement of every branch either reads `os` into a function
local (`n` on line 19; `i` then `n` on lines 33-34) or computes with locals;
no statement writes to `os`, so the call returns the state it was given. -/
def ocaml_b00_cpu_logical_count_call (p : Platform) (os : OSState) :
    Int × OSState :=
  match p with
  | Platform.darwin_or_posix =>
      let n : Int := os.sysconf_nprocessors_onln
      let n : Int := if n < 0 then 1 else n
      (n, os)
  | Platform.windows =>
      let i_dwNumberOfProcessors : Nat := os.dwNumberOfProcessors % 2 ^ 32
      let n : Nat := i_dwNumberOfProcessors
      let n : Nat := if n < 0 then 1 else n
      ((n : Int), os)
  | Platform.unsupported => (1, os)

/-- The value the OS query of platform `p` reports from state `os`: the
`sysconf` result on POSIX/Darwin, the `dwNumberOfProcessors` field value on
Windows.  On the unsupported target no query is made, so the report is the
constant the branch returns. -/
def os_reported_count : Platform → OSState → Int
  | Platform.darwin_or_posix, os => os.sysconf_nprocessors_onln
  | Platform.windows, os => ((os.dwNumberOfProcessors % 2 ^ 32 : Nat) : Int)
  | Platform.unsupported, _ => 1

/-- Values the `sysconf (_SC_NPROCESSORS_ONLN)` query may report: `-1` on
failure, and otherwise the number of processors currently online, which
includes at least the processor executing the query, hence is at least 1. -/
def posix_os_may_report (r : Int) : Prop := r = -1 ∨ 1 ≤ r

/-- Values the `dwNumberOfProcessors` field may hold on a running system: an
unsigned 32-bit count that includes at least the processor executing the
query. -/
def windows_os_may_report (dw : Nat) : Prop := 1 ≤ dw ∧ dw < 2 ^ 32

/-- States whose platform-relevant field holds a value the OS query of
platform `p` may actually report; on the unsupported target no query is made
and every state qualifies. -/
def os_may_report : Platform → OSState → Prop
  | Platform.darwin_or_posix, os =>
      posix_os_may_report os.sysconf_nprocessors_onln
  | Platform.windows, os => windows_os_may_report os.dwNumberOfProcessors
  | Platform.unsupported, _ => True

/-- The Windows branch with the defensive check of line 35 removed, written
from its description: the value of the unsigned field is returned
unchanged. -/
def windows_count_no_check (dw : Nat) : Nat := dw % 2 ^ 32

/-- Helper: the Windows branch returns the field value it read, since the
unsigned comparison of line 35 never holds on `Nat`. -/
theorem windows_branch_eq_mod (dw : Nat) :
    ocaml_b00_cpu_logical_count_windows dw = dw % 2 ^ 32 := rfl

/-- C1: for every value the OS query may report, on every platform (the two
supported branches, and the unsupported fallback as well), the stub returns
an integer greater than or equal to 1. -/
theorem C1_logical_count_ge_one (p : Platform) (os : OSState)
    (h : os_may_report p os) : 1 ≤ ocaml_b00_cpu_logical_count p os := by
  cases p with
  | darwin_or_posix =>
      simp only [os_may_report, posix_os_may_report] at h
      simp only [ocaml_b00_cpu_logical_count,
        ocaml_b00_cpu_logical_count_posix]
      rcases h with h | h <;> split <;> omega
  | windows =>
      simp only [os_may_report, windows_os_may_report] at h
      simp only [ocaml_b00_cpu_logical_count, windows_branch_eq_mod,
        Nat.mod_eq_of_lt h.2]
      exact_mod_cast h.1
  | unsupported =>
      simp [ocaml_b00_cpu_logical_count]

/-- Witness for C1 at a state reporting 8 processors on POSIX/Darwin. -/
theorem C1_logical_count_ge_one_witness :
    os_may_report Platform.darwin_or_posix ⟨8, 8⟩ ∧
      1 ≤ ocaml_b00_cpu_logical_count Platform.darwin_or_posix ⟨8, 8⟩ := by
  have h : os_may_report Platform.darwin_or_posix ⟨8, 8⟩ := by
    simp [os_may_report, posix_os_may_report]
  exact ⟨h, C1_logical_count_ge_one Platform.darwin_or_posix ⟨8, 8⟩ h⟩

/-- C2: a positive count N reported by the OS query is returned exactly, on
both supported platforms (on Windows the count is a value of the 32-bit
`DWORD` field, hence below `2 ^ 32`). -/
theorem C2_exact_count (N : Nat) (h : 0 < N) :
    ocaml_b00_cpu_logical_count Platform.darwin_or_posix ⟨(N : Int), 0⟩
        = N ∧
      (N < 2 ^ 32 →
        ocaml_b00_cpu_logical_count Platform.windows ⟨0, N⟩ = N) := by
  constructor
  · simp only [ocaml_b00_cpu_logical_count,
      ocaml_b00_cpu_logical_count_posix]
    split <;> omega
  · intro hN
    simp only [ocaml_b00_cpu_logical_count, windows_branch_eq_mod,
      Nat.mod_eq_of_lt hN]

/-- Witness for C2 with a reported count of 8 on both supported platforms. -/
theorem C2_exact_count_witness :
    ocaml_b00_cpu_logical_count Platform.darwin_or_posix ⟨8, 0⟩ = 8 ∧
      ocaml_b00_cpu_logical_count Platform.windows ⟨0, 8⟩ = 8 := by
  have h := C2_exact_count 8 (by norm_num)
  exact ⟨h.1, h.2 (by norm_num)⟩

/-- C3: a negative value reported by the `sysconf` query makes the stub
return exactly 1, and for any platform and any OS-reported value the result
is never negative, so a negative report is never propagated to the caller
(totality of the embedded functions reflects that the stub cannot fail). -/
theorem C3_negative_gives_one (r : Int) (h : r < 0) :
    ocaml_b00_cpu_logical_count Platform.darwin_or_posix ⟨r, 0⟩ = 1 ∧
      ∀ (p : Platform) (os : OSState),
        0 ≤ ocaml_b00_cpu_logical_count p os := by
  constructor
  · simp [ocaml_b00_cpu_logical_count, ocaml_b00_cpu_logical_count_posix, h]
  · intro p os
    cases p with
    | darwin_or_posix =>
        simp only [ocaml_b00_cpu_logical_count,
          ocaml_b00_cpu_logical_count_posix]
        split <;> omega
    | windows =>
        simp only [ocaml_b00_cpu_logical_count]
        exact Int.natCast_nonneg _
    | unsupported =>
        norm_num [ocaml_b00_cpu_logical_count]

/-- Witness for C3 at the failure report -1 of `sysconf`. -/
theorem C3_negative_gives_one_witness :
    ocaml_b00_cpu_logical_count Platform.darwin_or_posix ⟨-1, 0⟩ = 1 ∧
      0 ≤ ocaml_b00_cpu_logical_count Platform.windows ⟨0, 0⟩ := by
  have h := C3_negative_gives_one (-1) (by norm_num)
  exact ⟨h.1, h.2 Platform.windows ⟨0, 0⟩⟩

/-- C4: when none of the platform macros is defined the preprocessor selects
the unsupported branch, the compiled stub returns 1 whatever the OS state
holds, and the warning directive fires during that build (a compile-time
signal: `build_emits_warning` depends only on the build configuration, not
on any OS state). -/
theorem C4_unsupported_one_and_build_warning (c : BuildConfig)
    (h : c.OCAML_B00_DARWIN = false ∧ c.OCAML_B00_POSIX = false ∧
      c.OCAML_B00_WINDOWS = false) :
    selected_platform c = Platform.unsupported ∧
      (∀ os : OSState,
        ocaml_b00_cpu_logical_count (selected_platform c) os = 1) ∧
      build_emits_warning c = true := by
  have hp : selected_platform c = Platform.unsupported := by
    simp [selected_platform, h.1, h.2.1, h.2.2]
  refine ⟨hp, ?_, ?_⟩
  · intro os
    rw [hp]
    rfl
  · simp [build_emits_warning, hp]

/-- Witness for C4 at the build configuration with no platform macro
defined. -/
theorem C4_unsupported_one_and_build_warning_witness :
    selected_platform ⟨false, false, false⟩ = Platform.unsupported ∧
      ocaml_b00_cpu_logical_count
        (selected_platform ⟨false, false, false⟩) ⟨8, 8⟩ = 1 ∧
      build_emits_warning ⟨false, false, false⟩ = true := by
  have h := C4_unsupported_one_and_build_warning ⟨false, false, false⟩
    ⟨rfl, rfl, rfl⟩
  exact ⟨h.1, h.2.1 ⟨8, 8⟩, h.2.2⟩

/-- C5: in the Windows branch the guard of line 35 tests the value read from
the unsigned `dwNumberOfProcessors` field against 0 under unsigned
comparison, so it holds for no field value; the substituting branch is dead
and the function returns the field value unchanged. -/
theorem C5_windows_guard_dead (dw : Nat) (h : dw < 2 ^ 32) :
    ¬ ((dw % 2 ^ 32 : Nat) < 0) ∧
      ocaml_b00_cpu_logical_count_windows dw = dw := by
  refine ⟨Nat.not_lt_zero _, ?_⟩
  rw [windows_branch_eq_mod, Nat.mod_eq_of_lt h]

/-- Witness for C5 at the field value 5. -/
theorem C5_windows_guard_dead_witness :
    ¬ ((5 % 2 ^ 32 : Nat) < 0) ∧
      ocaml_b00_cpu_logical_count_windows 5 = 5 :=
  C5_windows_guard_dead 5 (by norm_num)

/-- C6: the stub is deterministic in the OS-reported count: two calls on the
same platform between which the reported count did not change return the
same value. -/
theorem C6_deterministic (p : Platform) (os1 os2 : OSState)
    (h : os_reported_count p os1 = os_reported_count p os2) :
    ocaml_b00_cpu_logical_count p os1 = ocaml_b00_cpu_logical_count p os2 := by
  cases p with
  | darwin_or_posix =>
      simp only [os_reported_count] at h
      simp only [ocaml_b00_cpu_logical_count, h]
  | windows =>
      simp only [os_reported_count, Nat.cast_inj] at h
      simp only [ocaml_b00_cpu_logical_count, windows_branch_eq_mod, h]
  | unsupported => rfl

/-- Witness for C6: two POSIX states with the same reported count of 4 and
different Windows fields give the same result. -/
theorem C6_deterministic_witness :
    os_reported_count Platform.darwin_or_posix ⟨4, 0⟩ =
        os_reported_count Platform.darwin_or_posix ⟨4, 9⟩ ∧
      ocaml_b00_cpu_logical_count Platform.darwin_or_posix ⟨4, 0⟩ =
        ocaml_b00_cpu_logical_count Platform.darwin_or_posix ⟨4, 9⟩ :=
  ⟨rfl, C6_deterministic Platform.darwin_or_posix ⟨4, 0⟩ ⟨4, 9⟩ rfl⟩

/-- C7: the stub has no side effects: threading the OS state through a call
statement by statement returns the state unchanged, and the result is the
one the pure function computes from the state it read. -/
theorem C7_no_side_effects (p : Platform) (os : OSState) :
    (ocaml_b00_cpu_logical_count_call p os).2 = os ∧
      (ocaml_b00_cpu_logical_count_call p os).1 =
        ocaml_b00_cpu_logical_count p os := by
  refine ⟨?_, ?_⟩ <;> cases p <;> rfl

/-- C8: with 8 online logical processors the stub returns 8 on both
supported platforms, with 1 it returns 1, and on the unsupported target it
returns 1 for every OS state. -/
theorem C8_concrete_scenarios :
    ocaml_b00_cpu_logical_count Platform.darwin_or_posix ⟨8, 8⟩ = 8 ∧
      ocaml_b00_cpu_logical_count Platform.windows ⟨8, 8⟩ = 8 ∧
      ocaml_b00_cpu_logical_count Platform.darwin_or_posix ⟨1, 1⟩ = 1 ∧
      ocaml_b00_cpu_logical_count Platform.windows ⟨1, 1⟩ = 1 ∧
      ∀ os : OSState,
        ocaml_b00_cpu_logical_count Platform.unsupported os = 1 := by
  refine ⟨by decide, by decide, by decide, by decide, ?_⟩
  intro os
  rfl

/-- C9: in the POSIX/Darwin branch the substitution with 1 applies only to
strictly negative query results: every non-negative reported value, 0
included, is returned unchanged. -/
theorem C9_nonneg_unchanged (n : Int) (h : 0 ≤ n) :
    ocaml_b00_cpu_logical_count_posix n = n := by
  simp only [ocaml_b00_cpu_logical_count_posix]
  split <;> omega

/-- Witness for C9 at the reported value 0: the result is 0, not 1. -/
theorem C9_nonneg_unchanged_witness :
    (0 : Int) ≤ 0 ∧ ocaml_b00_cpu_logical_count_posix 0 = 0 :=
  ⟨le_refl 0, C9_nonneg_unchanged 0 (le_refl 0)⟩

/-- C10: the Windows branch is extensionally equal to the version with the
defensive check removed, and every value of the unsigned field, 0 included,
is returned unchanged. -/
theorem C10_check_removable :
    (∀ dw : Nat,
        ocaml_b00_cpu_logical_count_windows dw = windows_count_no_check dw) ∧
      ∀ v : Nat, v < 2 ^ 32 → ocaml_b00_cpu_logical_count_windows v = v := by
  constructor
  · intro dw
    rfl
  · intro v hv
    rw [windows_branch_eq_mod, Nat.mod_eq_of_lt hv]

/-- Witness for C10 at the field value 0. -/
theorem C10_check_removable_witness :
    ocaml_b00_cpu_logical_count_windows 0 = 0 :=
  C10_check_removable.2 0 (by norm_num)
